import Mathlib

/-!
Verification of the DCGAN block-construction and network-assembly core
(`dcgan.py`): the four residual-block variants, the block-stack composition,
and the Generator / Discriminator assemblers.

The tensor runtime is shallowly embedded as a symbolic graph: each layer
application is a constructor of `Tensor`, so a constructed network is a
finite expression tree whose structure records every layer's configuration
(filters, kernel size, stride, padding, bias, initializer, layout).
Machine integers are `Nat` (Python's `//` on non-negative ints is `Nat.div`,
`<<`/`>>` are `Nat.shiftLeft`/`Nat.shiftRight`); the `version` field is `Int`
since the source only ever compares it for equality.  Fallible construction
(Python exceptions during graph building) is `Option`.
-/

/-- Spatial padding mode of a convolution or pooling layer. -/
inductive Padding where
  | same
  | valid
deriving DecidableEq

/-- Kernel initializer of a convolution (`tf.variance_scaling_initializer()`
is passed explicitly by this source; `glorotUniform` is the library default
used when no initializer is given). -/
inductive KernelInit where
  | varianceScaling
  | glorotUniform
deriving DecidableEq

/-- One stage configuration: `blocks` residual units, first unit at `strides`
(the `block_param` namedtuple consumed as `block_param.blocks` /
`block_param.strides`). -/
structure BlockParam where
  blocks : Nat
  strides : Nat
deriving DecidableEq

/-- Configuration of one standalone convolution (`final_conv_param` /
`initial_conv_param`). -/
structure ConvParam where
  kernel_size : Nat
  strides : Nat
deriving DecidableEq

/-- Symbolic tensor: the graph built by the construction code.  Each
constructor records the exact arguments the source passes to the
corresponding library layer. -/
inductive Tensor where
  /-- opaque network input, tagged with its channel count -/
  | input (channels : Nat)
  /-- `tf.layers.dense(inputs, units)` -/
  | dense (units : Nat) (x : Tensor)
  /-- `util.chunk_images(inputs, image_size, data_format)`: reshape the dense
  output to a spatial tensor of the given height and width in the configured
  layout -/
  | chunkImages (height width : Nat) (channelsFirst : Bool) (x : Tensor)
  /-- `tf.layers.conv2d` with every argument the source passes -/
  | conv2d (filters kernelSize strides : Nat) (padding : Padding)
      (useBias : Bool) (kinit : KernelInit) (channelsFirst : Bool) (x : Tensor)
  /-- `tf.nn.leaky_relu` -/
  | leakyRelu (x : Tensor)
  /-- `tf.nn.tanh` -/
  | tanh (x : Tensor)
  /-- `inputs += shortcut` -/
  | add (a b : Tensor)
  /-- `util.up_sampling2d(factor, data_format)` -/
  | upSample (factor : Nat) (channelsFirst : Bool) (x : Tensor)
  /-- `tf.layers.average_pooling2d(pool_size, strides, padding, data_format)` -/
  | avgPool (poolSize strides : Nat) (padding : Padding) (channelsFirst : Bool) (x : Tensor)
  /-- `util.global_average_pooling2d(data_format)` -/
  | globalAvgPool (channelsFirst : Bool) (x : Tensor)
deriving DecidableEq

/-- Channel depth of a symbolic tensor (the last/first axis size the runtime
would report): dense output has `units` channels, `chunk_images` splits the
dense width over the spatial grid, a convolution sets the depth to its
filter count, everything else preserves it. -/
def channelsOf : Tensor → Nat
  | .input c => c
  | .dense units _ => units
  | .chunkImages h w _ x => channelsOf x / (h * w)
  | .conv2d f _ _ _ _ _ _ _ => f
  | .leakyRelu x => channelsOf x
  | .tanh x => channelsOf x
  | .add a _ => channelsOf a
  | .upSample _ _ x => channelsOf x
  | .avgPool _ _ _ _ x => channelsOf x
  | .globalAvgPool _ x => channelsOf x

/-- `True` iff every convolution in the graph uses "same" padding,
variance-scaling initialization, and has its bias disabled. -/
def convsOk : Tensor → Bool
  | .input _ => true
  | .dense _ x => convsOk x
  | .chunkImages _ _ _ x => convsOk x
  | .conv2d _ _ _ pad useBias kinit _ x =>
      decide (pad = Padding.same) && !useBias &&
      decide (kinit = KernelInit.varianceScaling) && convsOk x
  | .leakyRelu x => convsOk x
  | .tanh x => convsOk x
  | .add a b => convsOk a && convsOk b
  | .upSample _ _ x => convsOk x
  | .avgPool _ _ _ _ x => convsOk x
  | .globalAvgPool _ x => convsOk x

/-- Modelled from the spec: `Model.projection_shortcut` lives in the `resnet`
module, which is not part of this snapshot.  §4.2: a single convolution with
kernel size 1, the block's target stride and target channel depth, no
activation; §4.1: bias disabled, "same" padding, variance-scaling
initialization as on every convolution. -/
def projection_shortcut (inputs : Tensor) (filters strides : Nat)
    (channelsFirst : Bool) : Tensor :=
  Tensor.conv2d filters 1 strides Padding.same false KernelInit.varianceScaling
    channelsFirst inputs

/-- `Model.building_block_v1` (dcgan.py lines 172–214): post-activation basic
block. -/
def building_block_v1 (inputs : Tensor) (filters strides : Nat)
    (proj channelsFirst training : Bool) : Tensor :=
  let shortcut := inputs
  let shortcut :=
    if proj then projection_shortcut inputs filters strides channelsFirst
    else shortcut
  let h := Tensor.conv2d filters 3 strides Padding.same false
    KernelInit.varianceScaling channelsFirst inputs
  let h := Tensor.leakyRelu h
  let h := Tensor.conv2d filters 3 1 Padding.same false
    KernelInit.varianceScaling channelsFirst h
  Tensor.leakyRelu (Tensor.add h shortcut)

/-- `Model.building_block_v2` (dcgan.py lines 216–258): pre-activation basic
block; the projection, when requested, is applied to the pre-activated
input, while the identity shortcut is the raw input. -/
def building_block_v2 (inputs : Tensor) (filters strides : Nat)
    (proj channelsFirst training : Bool) : Tensor :=
  let shortcut := inputs
  let a := Tensor.leakyRelu inputs
  let shortcut :=
    if proj then projection_shortcut a filters strides channelsFirst
    else shortcut
  let h := Tensor.conv2d filters 3 strides Padding.same false
    KernelInit.varianceScaling channelsFirst a
  let h := Tensor.leakyRelu h
  let h := Tensor.conv2d filters 3 1 Padding.same false
    KernelInit.varianceScaling channelsFirst h
  Tensor.add h shortcut

/-- `Model.bottleneck_block_v1` (dcgan.py lines 260–315): post-activation
bottleneck block; the final convolution and the projection use
`filters << 2` channels. -/
def bottleneck_block_v1 (inputs : Tensor) (filters strides : Nat)
    (proj channelsFirst training : Bool) : Tensor :=
  let shortcut := inputs
  let shortcut :=
    if proj then projection_shortcut inputs (filters <<< 2) strides channelsFirst
    else shortcut
  let h := Tensor.conv2d filters 1 1 Padding.same false
    KernelInit.varianceScaling channelsFirst inputs
  let h := Tensor.leakyRelu h
  let h := Tensor.conv2d filters 3 strides Padding.same false
    KernelInit.varianceScaling channelsFirst h
  let h := Tensor.leakyRelu h
  let h := Tensor.conv2d (filters <<< 2) 1 1 Padding.same false
    KernelInit.varianceScaling channelsFirst h
  Tensor.leakyRelu (Tensor.add h shortcut)

/-- `Model.bottleneck_block_v2` (dcgan.py lines 317–372): pre-activation
bottleneck block. -/
def bottleneck_block_v2 (inputs : Tensor) (filters strides : Nat)
    (proj channelsFirst training : Bool) : Tensor :=
  let shortcut := inputs
  let a := Tensor.leakyRelu inputs
  let shortcut :=
    if proj then projection_shortcut a (filters <<< 2) strides channelsFirst
    else shortcut
  let h := Tensor.conv2d filters 1 1 Padding.same false
    KernelInit.varianceScaling channelsFirst a
  let h := Tensor.leakyRelu h
  let h := Tensor.conv2d filters 3 strides Padding.same false
    KernelInit.varianceScaling channelsFirst h
  let h := Tensor.leakyRelu h
  let h := Tensor.conv2d (filters <<< 2) 1 1 Padding.same false
    KernelInit.varianceScaling channelsFirst h
  Tensor.add h shortcut

/-- The four residual-block variants, as a closed tagged type (the source
stores one of the four static methods in `block_fn`). -/
inductive BlockKind where
  | buildingV1
  | buildingV2
  | bottleneckV1
  | bottleneckV2
deriving DecidableEq

/-- Dispatch a `BlockKind` to its block function. -/
def applyBlock : BlockKind → Tensor → Nat → Nat → Bool → Bool → Bool → Tensor
  | .buildingV1 => building_block_v1
  | .buildingV2 => building_block_v2
  | .bottleneckV1 => bottleneck_block_v1
  | .bottleneckV2 => bottleneck_block_v2

/-- Output channel depth of a block variant given its filter argument:
`filters` for basic blocks, `4 × filters` for bottleneck blocks. -/
def blockOutDepth (k : BlockKind) (filters : Nat) : Nat :=
  match k with
  | .bottleneckV1 => 4 * filters
  | .bottleneckV2 => 4 * filters
  | _ => filters

/-- `block_fn` selection (dcgan.py lines 36–37 and 116–117): nested
conditionals testing `bottleneck` and then `version == 1`. -/
def blockFnSelect (bottleneck : Bool) (version : Int) : BlockKind :=
  if bottleneck then
    (if version = 1 then BlockKind.bottleneckV1 else BlockKind.bottleneckV2)
  else
    (if version = 1 then BlockKind.buildingV1 else BlockKind.buildingV2)

/-- Units 1..N-1 of a block stack: stride 1, no projection. -/
def blockLayerRest (k : BlockKind) (filters : Nat)
    (channelsFirst training : Bool) : Nat → Tensor → Tensor
  | 0, x => x
  | n + 1, x =>
      blockLayerRest k filters channelsFirst training n
        (applyBlock k x filters 1 false channelsFirst training)

/-- Modelled from the spec: `Model.block_layer` lives in the `resnet` module,
which is not part of this snapshot.  §4.3: unit 0 uses the stage's stride
and projects exactly when the stride is not 1 or the stage's target channel
depth differs from the incoming tensor's channel depth; units 1..N-1 use
stride 1 and no projection. -/
def block_layer (k : BlockKind) (blocks filters strides : Nat)
    (channelsFirst training : Bool) (inputs : Tensor) : Tensor :=
  let proj := (strides != 1) || (blockOutDepth k filters != channelsOf inputs)
  blockLayerRest k filters channelsFirst training (blocks - 1)
    (applyBlock k inputs filters strides proj channelsFirst training)

/-- Generator stage-`i` filter count: `self.filters >> i` (dcgan.py line 75). -/
def genStageFilters (filters i : Nat) : Nat := filters >>> i

/-- Discriminator stage-`i` filter count: `self.filters << i` (dcgan.py
line 144). -/
def discStageFilters (filters i : Nat) : Nat := filters <<< i

/-- `functools.reduce(operator.mul, [bp.strides ...])` (dcgan.py lines
43–45): no initial value, so the reduction of an empty list fails. -/
def stridesProduct : List BlockParam → Option Nat
  | [] => none
  | b :: bs => some (bs.foldl (fun acc bp => acc * bp.strides) b.strides)

/-- `Model.Generator` configuration (dcgan.py lines 23–32). -/
structure Generator where
  image_size : Nat × Nat
  filters : Nat
  bottleneck : Bool
  version : Int
  block_params : List BlockParam
  final_conv_param : ConvParam
  channels_first : Bool
deriving DecidableEq

/-- The Generator's stage loop (dcgan.py lines 69–82): for stage `i`, a block
stack with `filters >> i` filters followed by a factor-2 upsampling. -/
def Generator.stages (g : Generator) (training : Bool) :
    Nat → List BlockParam → Tensor → Tensor
  | _, [], x => x
  | i, bp :: rest, x =>
      Generator.stages g training (i + 1) rest
        (Tensor.upSample 2 g.channels_first
          (block_layer (blockFnSelect g.bottleneck g.version) bp.blocks
            (genStageFilters g.filters i) bp.strides g.channels_first training x))

/-- The Generator pipeline after the reshape (dcgan.py lines 65–98):
version-1 pre-stage activation, the stage loop, version-2 post-stage
activation, the final convolution to 3 channels (the source passes no
`use_bias`, so the library default bias is kept), and `tanh`. -/
def Generator.stagesAndTail (g : Generator) (training : Bool) (x : Tensor) : Tensor :=
  let x := if g.version = 1 then Tensor.leakyRelu x else x
  let x := Generator.stages g training 0 g.block_params x
  let x := if g.version = 2 then Tensor.leakyRelu x else x
  Tensor.tanh (Tensor.conv2d 3 g.final_conv_param.kernel_size
    g.final_conv_param.strides Padding.same true KernelInit.varianceScaling
    g.channels_first x)

/-- `Model.Generator.__call__` (dcgan.py lines 34–100).  Construction fails
(`none`) exactly when the Python code would raise while building the graph:
the empty-list reduction for the stride product, or a zero stride product
making the floor divisions raise `ZeroDivisionError`.  The dense width is
the source's left-to-right expression
`filters * H // P * W // P` (dcgan.py lines 47–54). -/
def Generator.call (g : Generator) (z : Tensor) (training : Bool) : Option Tensor :=
  match stridesProduct g.block_params with
  | none => none
  | some p =>
      if p = 0 then none
      else
        some (Generator.stagesAndTail g training
          (Tensor.chunkImages (g.image_size.1 / p) (g.image_size.2 / p)
            g.channels_first
            (Tensor.dense (g.filters * g.image_size.1 / p * g.image_size.2 / p) z)))

/-- `Model.Discriminator` configuration (dcgan.py lines 104–112). -/
structure Discriminator where
  filters : Nat
  initial_conv_param : ConvParam
  bottleneck : Bool
  version : Int
  block_params : List BlockParam
  channels_first : Bool
deriving DecidableEq

/-- The Discriminator's stage loop (dcgan.py lines 138–157): for stage `i`, a
block stack with `filters << i` filters followed by a 2×2 average pooling. -/
def Discriminator.stages (d : Discriminator) (training : Bool) :
    Nat → List BlockParam → Tensor → Tensor
  | _, [], x => x
  | i, bp :: rest, x =>
      Discriminator.stages d training (i + 1) rest
        (Tensor.avgPool 2 2 Padding.same d.channels_first
          (block_layer (blockFnSelect d.bottleneck d.version) bp.blocks
            (discStageFilters d.filters i) bp.strides d.channels_first training x))

/-- `Model.Discriminator.__call__` (dcgan.py lines 114–170): initial
convolution (bias disabled), version-1 activation, the stage loop, version-2
activation, global average pooling, dense projection to one unit.  No
configuration makes this construction raise. -/
def Discriminator.call (d : Discriminator) (x : Tensor) (training : Bool) : Tensor :=
  let x := Tensor.conv2d d.filters d.initial_conv_param.kernel_size
    d.initial_conv_param.strides Padding.same false KernelInit.varianceScaling
    d.channels_first x
  let x := if d.version = 1 then Tensor.leakyRelu x else x
  let x := Discriminator.stages d training 0 d.block_params x
  let x := if d.version = 2 then Tensor.leakyRelu x else x
  Tensor.dense 1 (Tensor.globalAvgPool d.channels_first x)

/-- Reference stage loop following the hybrid behaviour described for
version values outside {1, 2}: the block family is fixed to the v2
(pre-activation) variants, everything else as in `Generator.stages`. -/
def Generator.hybridStages (g : Generator) (training : Bool) :
    Nat → List BlockParam → Tensor → Tensor
  | _, [], x => x
  | i, bp :: rest, x =>
      Generator.hybridStages g training (i + 1) rest
        (Tensor.upSample 2 g.channels_first
          (block_layer
            (if g.bottleneck then BlockKind.bottleneckV2 else BlockKind.buildingV2)
            bp.blocks (genStageFilters g.filters i) bp.strides g.channels_first
            training x))

/-- Reference Generator assembly following the hybrid behaviour described for
version values outside {1, 2}: v2 block family, and neither the pre-stage
nor the post-stage leaky-ReLU is applied. -/
def Generator.hybridCall (g : Generator) (z : Tensor) (training : Bool) : Option Tensor :=
  match stridesProduct g.block_params with
  | none => none
  | some p =>
      if p = 0 then none
      else
        some (Tensor.tanh (Tensor.conv2d 3 g.final_conv_param.kernel_size
          g.final_conv_param.strides Padding.same true KernelInit.varianceScaling
          g.channels_first
          (Generator.hybridStages g training 0 g.block_params
            (Tensor.chunkImages (g.image_size.1 / p) (g.image_size.2 / p)
              g.channels_first
              (Tensor.dense (g.filters * g.image_size.1 / p * g.image_size.2 / p) z)))))

/-- Reference stage loop of the hybrid Discriminator for version values
outside {1, 2}: block family fixed to the v2 variants. -/
def Discriminator.hybridStages (d : Discriminator) (training : Bool) :
    Nat → List BlockParam → Tensor → Tensor
  | _, [], x => x
  | i, bp :: rest, x =>
      Discriminator.hybridStages d training (i + 1) rest
        (Tensor.avgPool 2 2 Padding.same d.channels_first
          (block_layer
            (if d.bottleneck then BlockKind.bottleneckV2 else BlockKind.buildingV2)
            bp.blocks (discStageFilters d.filters i) bp.strides d.channels_first
            training x))

/-- Reference Discriminator assembly of the hybrid behaviour for version
values outside {1, 2}: v2 block family, neither stage-level leaky-ReLU. -/
def Discriminator.hybridCall (d : Discriminator) (x : Tensor) (training : Bool) : Tensor :=
  Tensor.dense 1 (Tensor.globalAvgPool d.channels_first
    (Discriminator.hybridStages d training 0 d.block_params
      (Tensor.conv2d d.filters d.initial_conv_param.kernel_size
        d.initial_conv_param.strides Padding.same false KernelInit.varianceScaling
        d.channels_first x)))

theorem blockFnSelect_of_ne_one (b : Bool) (v : Int) (hv : v ≠ 1) :
    blockFnSelect b v =
      (if b then BlockKind.bottleneckV2 else BlockKind.buildingV2) := by
  simp [blockFnSelect, hv]

theorem applyBlock_training (k : BlockKind) (x : Tensor) (f s : Nat)
    (p cf t1 t2 : Bool) :
    applyBlock k x f s p cf t1 = applyBlock k x f s p cf t2 := by
  cases k <;> rfl

theorem blockLayerRest_training (k : BlockKind) (f : Nat) (cf t1 t2 : Bool)
    (n : Nat) (x : Tensor) :
    blockLayerRest k f cf t1 n x = blockLayerRest k f cf t2 n x := by
  induction n generalizing x with
  | zero => rfl
  | succ m ih =>
      simp only [blockLayerRest]
      rw [applyBlock_training k x f 1 false cf t1 t2]
      exact ih _

theorem block_layer_training (k : BlockKind) (b f s : Nat) (cf t1 t2 : Bool)
    (x : Tensor) :
    block_layer k b f s cf t1 x = block_layer k b f s cf t2 x := by
  simp only [block_layer]
  rw [applyBlock_training k x f s _ cf t1 t2, blockLayerRest_training k f cf t1 t2]

theorem genStagesTrainingIrrel (g : Generator) (t1 t2 : Bool) (i : Nat)
    (l : List BlockParam) (x : Tensor) :
    Generator.stages g t1 i l x = Generator.stages g t2 i l x := by
  induction l generalizing i x with
  | nil => rfl
  | cons bp rest ih =>
      simp only [Generator.stages]
      rw [block_layer_training _ _ _ _ _ t1 t2]
      exact ih _ _

theorem discStagesTrainingIrrel (d : Discriminator) (t1 t2 : Bool) (i : Nat)
    (l : List BlockParam) (x : Tensor) :
    Discriminator.stages d t1 i l x = Discriminator.stages d t2 i l x := by
  induction l generalizing i x with
  | nil => rfl
  | cons bp rest ih =>
      simp only [Discriminator.stages]
      rw [block_layer_training _ _ _ _ _ t1 t2]
      exact ih _ _

theorem genStagesHybridEq (g : Generator) (t : Bool) (hv : g.version ≠ 1)
    (i : Nat) (l : List BlockParam) (x : Tensor) :
    Generator.stages g t i l x = Generator.hybridStages g t i l x := by
  induction l generalizing i x with
  | nil => rfl
  | cons bp rest ih =>
      simp only [Generator.stages, Generator.hybridStages,
        blockFnSelect_of_ne_one g.bottleneck g.version hv]
      exact ih _ _

theorem discStagesHybridEq (d : Discriminator) (t : Bool)
    (hv : d.version ≠ 1) (i : Nat) (l : List BlockParam) (x : Tensor) :
    Discriminator.stages d t i l x = Discriminator.hybridStages d t i l x := by
  induction l generalizing i x with
  | nil => rfl
  | cons bp rest ih =>
      simp only [Discriminator.stages, Discriminator.hybridStages,
        blockFnSelect_of_ne_one d.bottleneck d.version hv]
      exact ih _ _

theorem convsOk_projection (x : Tensor) (f s : Nat) (cf : Bool) :
    convsOk (projection_shortcut x f s cf) = convsOk x := by
  simp [projection_shortcut, convsOk]

theorem convsOk_building_block_v1 (x : Tensor) (f s : Nat) (p cf t : Bool)
    (h : convsOk x = true) : convsOk (building_block_v1 x f s p cf t) = true := by
  cases p <;> simp [building_block_v1, convsOk, projection_shortcut, h]

theorem convsOk_building_block_v2 (x : Tensor) (f s : Nat) (p cf t : Bool)
    (h : convsOk x = true) : convsOk (building_block_v2 x f s p cf t) = true := by
  cases p <;> simp [building_block_v2, convsOk, projection_shortcut, h]

theorem convsOk_bottleneck_block_v1 (x : Tensor) (f s : Nat) (p cf t : Bool)
    (h : convsOk x = true) : convsOk (bottleneck_block_v1 x f s p cf t) = true := by
  cases p <;> simp [bottleneck_block_v1, convsOk, projection_shortcut, h]

theorem convsOk_bottleneck_block_v2 (x : Tensor) (f s : Nat) (p cf t : Bool)
    (h : convsOk x = true) : convsOk (bottleneck_block_v2 x f s p cf t) = true := by
  cases p <;> simp [bottleneck_block_v2, convsOk, projection_shortcut, h]

theorem convsOk_applyBlock (k : BlockKind) (x : Tensor) (f s : Nat)
    (p cf t : Bool) (h : convsOk x = true) :
    convsOk (applyBlock k x f s p cf t) = true := by
  cases k
  · exact convsOk_building_block_v1 x f s p cf t h
  · exact convsOk_building_block_v2 x f s p cf t h
  · exact convsOk_bottleneck_block_v1 x f s p cf t h
  · exact convsOk_bottleneck_block_v2 x f s p cf t h

theorem convsOk_blockLayerRest (k : BlockKind) (f : Nat) (cf t : Bool) (n : Nat)
    (x : Tensor) (h : convsOk x = true) :
    convsOk (blockLayerRest k f cf t n x) = true := by
  induction n generalizing x with
  | zero => exact h
  | succ m ih =>
      exact ih _ (convsOk_applyBlock k x f 1 false cf t h)

theorem convsOk_block_layer (k : BlockKind) (b f s : Nat) (cf t : Bool)
    (x : Tensor) (h : convsOk x = true) :
    convsOk (block_layer k b f s cf t x) = true := by
  simp only [block_layer]
  exact convsOk_blockLayerRest k f cf t (b - 1) _
    (convsOk_applyBlock k x f s _ cf t h)

theorem convsOk_discStages (d : Discriminator) (t : Bool) (i : Nat)
    (l : List BlockParam) (x : Tensor) (h : convsOk x = true) :
    convsOk (Discriminator.stages d t i l x) = true := by
  induction l generalizing i x with
  | nil => exact h
  | cons bp rest ih =>
      refine ih _ _ ?_
      simp only [convsOk]
      exact convsOk_block_layer _ _ _ _ _ _ _ h

/-- C1 (counterexample): the configuration with a single stage of stride 4 on
a 64×64 image violates the round-trip resolution law
(`64 ≠ (64 / 4) * 2^1` and the stride product `4 ≠ 2^1`), yet Generator
construction accepts it: no `ShapeMismatchError` exists in the code. -/
theorem c1_counterexample :
    stridesProduct [(⟨1, 4⟩ : BlockParam)] = some 4 ∧
      (Generator.call ⟨(64, 64), 64, false, 2, [⟨1, 4⟩], ⟨3, 1⟩, false⟩
          (Tensor.input 100) true).isSome = true ∧
      ¬(64 = 64 / 4 * 2 ^ 1) ∧ ¬((4 : Nat) = 2 ^ 1) :=
  ⟨rfl, rfl, by decide, by decide⟩

/-- C1 (amended): Generator construction performs no round-trip check at all:
every configuration whose stage list is nonempty and whose stride product is
nonzero is accepted (construction yields a graph), whether or not the
resolution law holds, and no `ShapeMismatchError` is ever raised. -/
theorem c1_construction_never_rejects (g : Generator) (z : Tensor) (t : Bool)
    (p : Nat) (hp : stridesProduct g.block_params = some p) (hpos : 0 < p) :
    (Generator.call g z t).isSome = true := by
  simp [Generator.call, hp, hpos.ne']

theorem c1_witness :
    (Generator.call ⟨(64, 64), 64, false, 2, [⟨1, 4⟩], ⟨3, 1⟩, false⟩
        (Tensor.input 100) true).isSome = true :=
  c1_construction_never_rejects _ _ _ 4 rfl (by decide)

/-- C2 (counterexample): a 65×65 image with stride product 2 is not evenly
divisible, yet Generator construction accepts it and computes the dense
width by floored division: `64 * 65 // 2 * 65 // 2 = 67600`. -/
theorem c2_counterexample :
    (Generator.call ⟨(65, 65), 64, false, 2, [⟨1, 2⟩], ⟨3, 1⟩, false⟩
        (Tensor.input 100) true).isSome = true ∧
      ¬(2 ∣ 65) ∧ 64 * 65 / 2 * 65 / 2 = 67600 :=
  ⟨rfl, by decide, by decide⟩

/-- C2 (amended): when the stride product does not divide an image dimension,
Generator construction does not raise: it silently proceeds, building the
dense layer with the left-to-right floored width
`filters * H / p * W / p` and reshaping to the floored spatial grid. -/
theorem c2_silent_floor (g : Generator) (z : Tensor) (t : Bool) (p : Nat)
    (hp : stridesProduct g.block_params = some p) (hpos : 0 < p)
    (hnd : ¬ p ∣ g.image_size.1) :
    Generator.call g z t =
      some (Generator.stagesAndTail g t
        (Tensor.chunkImages (g.image_size.1 / p) (g.image_size.2 / p)
          g.channels_first
          (Tensor.dense (g.filters * g.image_size.1 / p * g.image_size.2 / p) z))) := by
  simp [Generator.call, hp, hpos.ne']

theorem c2_witness :
    (0 < 2 ∧ ¬(2 ∣ 65)) ∧
      Generator.call (⟨(65, 65), 64, false, 2, [⟨1, 2⟩], ⟨3, 1⟩, false⟩ : Generator)
          (Tensor.input 100) true =
        some (Generator.stagesAndTail
          (⟨(65, 65), 64, false, 2, [⟨1, 2⟩], ⟨3, 1⟩, false⟩ : Generator) true
          (Tensor.chunkImages (65 / 2) (65 / 2) false
            (Tensor.dense (64 * 65 / 2 * 65 / 2) (Tensor.input 100)))) :=
  ⟨⟨by decide, by decide⟩, c2_silent_floor _ _ _ 2 rfl (by decide) (by decide)⟩

/-- C3: when the stride product `p` exactly divides both image dimensions,
the Generator's dense layer width `filters * H / p * W / p` equals the
spec's `filters * (H/p) * (W/p)`, and the result is reshaped to a spatial
tensor of height `H/p`, width `W/p` and `filters` channels in the
configured layout. -/
theorem c3_dense_units_and_reshape (g : Generator) (z : Tensor) (t : Bool)
    (p : Nat) (hp : stridesProduct g.block_params = some p) (hpos : 0 < p)
    (hH : p ∣ g.image_size.1) (hW : p ∣ g.image_size.2)
    (h1 : 0 < g.image_size.1) (h2 : 0 < g.image_size.2) :
    Generator.call g z t =
      some (Generator.stagesAndTail g t
        (Tensor.chunkImages (g.image_size.1 / p) (g.image_size.2 / p)
          g.channels_first
          (Tensor.dense (g.filters * (g.image_size.1 / p) * (g.image_size.2 / p)) z))) ∧
      channelsOf
          (Tensor.chunkImages (g.image_size.1 / p) (g.image_size.2 / p)
            g.channels_first
            (Tensor.dense (g.filters * (g.image_size.1 / p) * (g.image_size.2 / p)) z)) =
        g.filters := by
  constructor
  · have hu : g.filters * g.image_size.1 / p * g.image_size.2 / p
        = g.filters * (g.image_size.1 / p) * (g.image_size.2 / p) := by
      rw [Nat.mul_div_assoc g.filters hH, Nat.mul_div_assoc _ hW]
    rw [← hu]
    simp [Generator.call, hp, hpos.ne']
  · have hh : 0 < g.image_size.1 / p := Nat.div_pos (Nat.le_of_dvd h1 hH) hpos
    have hw : 0 < g.image_size.2 / p := Nat.div_pos (Nat.le_of_dvd h2 hW) hpos
    simp only [channelsOf]
    rw [mul_assoc, Nat.mul_div_cancel _ (Nat.mul_pos hh hw)]

theorem c3_witness :
    (stridesProduct [(⟨1, 2⟩ : BlockParam), ⟨1, 2⟩, ⟨1, 2⟩, ⟨1, 2⟩] = some 16 ∧
        (16 : Nat) ∣ 64) ∧
      Generator.call
          (⟨(64, 64), 64, false, 2, [⟨1, 2⟩, ⟨1, 2⟩, ⟨1, 2⟩, ⟨1, 2⟩], ⟨3, 1⟩,
            false⟩ : Generator) (Tensor.input 100) true =
        some (Generator.stagesAndTail
          (⟨(64, 64), 64, false, 2, [⟨1, 2⟩, ⟨1, 2⟩, ⟨1, 2⟩, ⟨1, 2⟩], ⟨3, 1⟩,
            false⟩ : Generator) true
          (Tensor.chunkImages 4 4 false (Tensor.dense 1024 (Tensor.input 100)))) ∧
      channelsOf (Tensor.chunkImages 4 4 false (Tensor.dense 1024 (Tensor.input 100))) = 64 :=
  ⟨⟨rfl, by decide⟩,
    c3_dense_units_and_reshape _ _ _ 16 rfl (by decide) (by decide) (by decide)
      (by decide) (by decide)⟩

/-- C4: activation placement of the four block variants.  The v1 blocks end
in a trailing leaky-ReLU applied after the shortcut add; the v2 blocks
return the bare sum (their outermost node is the add, not an activation),
and the v2 shortcut is the projection of the pre-activated input when
projection is requested and the raw (unactivated) input otherwise, while
the v1 shortcut projects the raw input. -/
theorem c4_activation_placement (x : Tensor) (f s : Nat) (p cf t : Bool) :
    (∃ h, building_block_v1 x f s p cf t =
        Tensor.leakyRelu (Tensor.add h
          (if p then projection_shortcut x f s cf else x))) ∧
    (∃ h, bottleneck_block_v1 x f s p cf t =
        Tensor.leakyRelu (Tensor.add h
          (if p then projection_shortcut x (f <<< 2) s cf else x))) ∧
    (∃ h, building_block_v2 x f s p cf t =
        Tensor.add h
          (if p then projection_shortcut (Tensor.leakyRelu x) f s cf else x)) ∧
    (∃ h, bottleneck_block_v2 x f s p cf t =
        Tensor.add h
          (if p then projection_shortcut (Tensor.leakyRelu x) (f <<< 2) s cf else x)) :=
  ⟨⟨_, rfl⟩, ⟨_, rfl⟩, ⟨_, rfl⟩, ⟨_, rfl⟩⟩

/-- C5 (counterexample): with `base_filters = 3` and two stages, `2^1` does
not divide 3, yet the Generator builds the stage-1 block stack with the
silently truncated filter count `3 >> 1 = 1` instead of failing. -/
theorem c5_counterexample :
    (Generator.call ⟨(8, 8), 3, false, 2, [⟨1, 2⟩, ⟨1, 2⟩], ⟨3, 1⟩, false⟩
        (Tensor.input 100) true).isSome = true ∧
      genStageFilters 3 1 = 1 ∧ ¬(2 ^ 1 ∣ 3) :=
  ⟨rfl, rfl, by decide⟩

/-- C5 (amended): the Generator's stage-`i` block stack is built with
`base_filters >> i = ⌊base_filters / 2^i⌋` filters, truncating silently
when `2^i` does not divide `base_filters`; the Discriminator's stage-`i`
stack uses `base_filters << i = base_filters * 2^i`; and the bottleneck
block variants produce an output channel depth of `4 ×` their filter
argument. -/
theorem c5_filter_schedule (f i s : Nat) (x : Tensor) (p cf t : Bool) :
    genStageFilters f i = f / 2 ^ i ∧
    discStageFilters f i = f * 2 ^ i ∧
    channelsOf (bottleneck_block_v1 x f s p cf t) = 4 * f ∧
    channelsOf (bottleneck_block_v2 x f s p cf t) = 4 * f := by
  refine ⟨Nat.shiftRight_eq_div_pow f i, Nat.shiftLeft_eq f i, ?_, ?_⟩
  · simp only [bottleneck_block_v1, channelsOf, Nat.shiftLeft_eq]
    ring
  · simp only [bottleneck_block_v2, channelsOf, Nat.shiftLeft_eq]
    ring

/-- C6 (counterexample): on a concrete configuration, the Generator's
constructed graph contains a convolution violating the all-convolutions
contract: its final convolution is built without `use_bias=False`, so the
library-default bias is enabled. -/
theorem c6_counterexample :
    Option.map convsOk
        (Generator.call ⟨(4, 4), 4, false, 1, [⟨1, 2⟩, ⟨1, 2⟩], ⟨3, 1⟩, false⟩
          (Tensor.input 100) true) = some false := rfl

/-- C6 (amended): every convolution inside the four block variants and every
convolution of the Discriminator (initial convolution included) uses "same"
padding, variance-scaling initialization and a disabled bias, but the
Generator's final convolution, while using "same" padding and
variance-scaling initialization, keeps its bias enabled (the source omits
`use_bias=False` there). -/
theorem c6_conv_attributes (d : Discriminator) (x y : Tensor) (t : Bool)
    (f s : Nat) (p cf : Bool) (g : Generator) (z : Tensor) :
    (convsOk x = true → convsOk (Discriminator.call d x t) = true) ∧
    (convsOk y = true → convsOk (building_block_v1 y f s p cf t) = true) ∧
    (convsOk y = true → convsOk (building_block_v2 y f s p cf t) = true) ∧
    (convsOk y = true → convsOk (bottleneck_block_v1 y f s p cf t) = true) ∧
    (convsOk y = true → convsOk (bottleneck_block_v2 y f s p cf t) = true) ∧
    (∀ q, stridesProduct g.block_params = some q → 0 < q →
      ∃ pre, Generator.call g z t =
        some (Tensor.tanh (Tensor.conv2d 3 g.final_conv_param.kernel_size
          g.final_conv_param.strides Padding.same true KernelInit.varianceScaling
          g.channels_first pre))) := by
  refine ⟨?_, convsOk_building_block_v1 y f s p cf t,
    convsOk_building_block_v2 y f s p cf t,
    convsOk_bottleneck_block_v1 y f s p cf t,
    convsOk_bottleneck_block_v2 y f s p cf t, ?_⟩
  · intro hx
    simp only [Discriminator.call, convsOk]
    have hconv : convsOk (Tensor.conv2d d.filters d.initial_conv_param.kernel_size
        d.initial_conv_param.strides Padding.same false KernelInit.varianceScaling
        d.channels_first x) = true := by
      simp [convsOk, hx]
    have h1 : convsOk (if d.version = 1 then
        Tensor.leakyRelu (Tensor.conv2d d.filters d.initial_conv_param.kernel_size
          d.initial_conv_param.strides Padding.same false KernelInit.varianceScaling
          d.channels_first x)
      else Tensor.conv2d d.filters d.initial_conv_param.kernel_size
          d.initial_conv_param.strides Padding.same false KernelInit.varianceScaling
          d.channels_first x) = true := by
      split
      · simpa [convsOk] using hconv
      · exact hconv
    have h2 := convsOk_discStages d t 0 d.block_params _ h1
    split
    · simpa [convsOk] using h2
    · exact h2
  · intro q hq hq0
    have hcall : Generator.call g z t =
        some (Generator.stagesAndTail g t
          (Tensor.chunkImages (g.image_size.1 / q) (g.image_size.2 / q)
            g.channels_first
            (Tensor.dense (g.filters * g.image_size.1 / q * g.image_size.2 / q) z))) := by
      simp only [Generator.call, hq]
      rw [if_neg hq0.ne']
    exact ⟨_, hcall⟩

theorem c6_witness :
    convsOk (Discriminator.call ⟨4, ⟨3, 1⟩, false, 1, [⟨1, 2⟩], false⟩
        (Tensor.input 3) true) = true ∧
      convsOk (building_block_v1 (Tensor.input 5) 2 1 false false true) = true ∧
      convsOk (building_block_v2 (Tensor.input 5) 2 1 false false true) = true ∧
      convsOk (bottleneck_block_v1 (Tensor.input 5) 2 1 false false true) = true ∧
      convsOk (bottleneck_block_v2 (Tensor.input 5) 2 1 false false true) = true ∧
      (∃ pre, Generator.call
          (⟨(4, 4), 4, false, 1, [⟨1, 2⟩], ⟨3, 1⟩, false⟩ : Generator)
          (Tensor.input 10) true =
        some (Tensor.tanh (Tensor.conv2d 3 3 1 Padding.same true
          KernelInit.varianceScaling false pre))) := by
  obtain ⟨hd, hb1, hb2, hn1, hn2, hgen⟩ :=
    c6_conv_attributes (⟨4, ⟨3, 1⟩, false, 1, [⟨1, 2⟩], false⟩ : Discriminator)
      (Tensor.input 3) (Tensor.input 5) true 2 1 false false
      (⟨(4, 4), 4, false, 1, [⟨1, 2⟩], ⟨3, 1⟩, false⟩ : Generator)
      (Tensor.input 10)
  exact ⟨hd rfl, hb1 rfl, hb2 rfl, hn1 rfl, hn2 rfl, hgen 2 rfl (by decide)⟩

/-- C7 (counterexample): version 3 is outside {1, 2}, yet Generator
construction accepts it and builds a graph: no `InvalidVariantSelection`
exists in the code. -/
theorem c7_counterexample :
    (Generator.call ⟨(64, 64), 64, false, 3, [⟨1, 2⟩], ⟨3, 1⟩, false⟩
        (Tensor.input 100) true).isSome = true ∧
      ((3 : Int) ≠ 1 ∧ (3 : Int) ≠ 2) :=
  ⟨rfl, by decide, by decide⟩

/-- C7 (amended): an unsupported `(bottleneck, version)` combination is never
rejected: for any version outside {1, 2} a network graph is still built,
the selection falling through to the v2 block family (the source only tests
`version == 1`). -/
theorem c7_no_variant_validation (g : Generator) (z : Tensor) (t : Bool)
    (b : Bool) (v : Int) (q : Nat)
    (hq : stridesProduct g.block_params = some q) (hq0 : 0 < q)
    (hv1 : v ≠ 1) (hv2 : v ≠ 2) :
    (Generator.call g z t).isSome = true ∧
      blockFnSelect b v =
        (if b then BlockKind.bottleneckV2 else BlockKind.buildingV2) :=
  ⟨by simp [Generator.call, hq, hq0.ne'], blockFnSelect_of_ne_one b v hv1⟩

theorem c7_witness :
    (Generator.call ⟨(64, 64), 64, false, 0, [⟨1, 2⟩], ⟨3, 1⟩, false⟩
        (Tensor.input 100) true).isSome = true ∧
      blockFnSelect true 0 =
        (if true then BlockKind.bottleneckV2 else BlockKind.buildingV2) :=
  c7_no_variant_validation _ _ _ true 0 2 rfl (by decide) (by decide) (by decide)

/-- C8 (counterexample): with an empty stage list the Generator fails (but
with the empty-reduce error, there is no `InvalidStageConfig` in the code),
while the Discriminator silently builds the stage-free network: initial
convolution, post-stage activation (version 2), global average pooling and
the dense head. -/
theorem c8_counterexample :
    Generator.call ⟨(64, 64), 64, false, 2, [], ⟨3, 1⟩, false⟩
        (Tensor.input 100) true = none ∧
      Discriminator.call ⟨64, ⟨3, 1⟩, false, 2, [], false⟩ (Tensor.input 3) true =
        Tensor.dense 1 (Tensor.globalAvgPool false
          (Tensor.leakyRelu
            (Tensor.conv2d 64 3 1 Padding.same false KernelInit.varianceScaling
              false (Tensor.input 3)))) :=
  ⟨rfl, rfl⟩

/-- C8 (amended): with `stages = []` the Generator's construction fails —
the stride-product reduction has no initial value — though not with a
dedicated `InvalidStageConfig`; the Discriminator's construction does not
fail at all: it silently builds the network with no stage blocks. -/
theorem c8_empty_stages (g : Generator) (d : Discriminator) (z x : Tensor)
    (t : Bool) (hg : g.block_params = []) (hd : d.block_params = []) :
    Generator.call g z t = none ∧
      Discriminator.call d x t =
        Tensor.dense 1 (Tensor.globalAvgPool d.channels_first
          (if d.version = 2 then
            Tensor.leakyRelu
              (if d.version = 1 then
                Tensor.leakyRelu (Tensor.conv2d d.filters
                  d.initial_conv_param.kernel_size d.initial_conv_param.strides
                  Padding.same false KernelInit.varianceScaling d.channels_first x)
              else Tensor.conv2d d.filters d.initial_conv_param.kernel_size
                d.initial_conv_param.strides Padding.same false
                KernelInit.varianceScaling d.channels_first x)
          else
            (if d.version = 1 then
              Tensor.leakyRelu (Tensor.conv2d d.filters
                d.initial_conv_param.kernel_size d.initial_conv_param.strides
                Padding.same false KernelInit.varianceScaling d.channels_first x)
            else Tensor.conv2d d.filters d.initial_conv_param.kernel_size
              d.initial_conv_param.strides Padding.same false
              KernelInit.varianceScaling d.channels_first x))) := by
  constructor
  · simp [Generator.call, hg, stridesProduct]
  · simp only [Discriminator.call, hd, Discriminator.stages]

theorem c8_witness :
    Generator.call ⟨(32, 32), 16, true, 1, [], ⟨3, 1⟩, true⟩
        (Tensor.input 100) true = none ∧
      Discriminator.call ⟨16, ⟨5, 1⟩, true, 1, [], true⟩ (Tensor.input 3) true =
        Tensor.dense 1 (Tensor.globalAvgPool true
          (Tensor.leakyRelu
            (Tensor.conv2d 16 5 1 Padding.same false KernelInit.varianceScaling
              true (Tensor.input 3)))) := by
  have h := c8_empty_stages ⟨(32, 32), 16, true, 1, [], ⟨3, 1⟩, true⟩
    ⟨16, ⟨5, 1⟩, true, 1, [], true⟩ (Tensor.input 100) (Tensor.input 3) true rfl rfl
  exact ⟨h.1, by simpa using h.2⟩

/-- C9: the training-mode flag is accepted by every block function and by
both assemblers but never consumed: the constructed graph is identical for
`training = true` and `training = false`. -/
theorem c9_training_flag_unused (g : Generator) (d : Discriminator)
    (z x y : Tensor) (f s : Nat) (p cf : Bool) :
    Generator.call g z true = Generator.call g z false ∧
    Discriminator.call d x true = Discriminator.call d x false ∧
    building_block_v1 y f s p cf true = building_block_v1 y f s p cf false ∧
    building_block_v2 y f s p cf true = building_block_v2 y f s p cf false ∧
    bottleneck_block_v1 y f s p cf true = bottleneck_block_v1 y f s p cf false ∧
    bottleneck_block_v2 y f s p cf true = bottleneck_block_v2 y f s p cf false := by
  refine ⟨?_, ?_, rfl, rfl, rfl, rfl⟩
  · cases hsp : stridesProduct g.block_params with
    | none => simp [Generator.call, hsp]
    | some q =>
        simp only [Generator.call, hsp]
        split
        · rfl
        · simp only [Generator.stagesAndTail]
          rw [genStagesTrainingIrrel g true false]
  · simp only [Discriminator.call]
    rw [discStagesTrainingIrrel d true false]

/-- C10: for any version value outside {1, 2}, both Generator and
Discriminator still construct a network, and it is the hybrid: the block
selection (testing only `version == 1`) picks the v2 block family, while
the assembler-level activations (testing `version == 1` and `version == 2`
exactly) are both skipped. -/
theorem c10_hybrid_version (g : Generator) (d : Discriminator) (z x : Tensor)
    (t : Bool) (hg1 : g.version ≠ 1) (hg2 : g.version ≠ 2)
    (hd1 : d.version ≠ 1) (hd2 : d.version ≠ 2) :
    Generator.call g z t = Generator.hybridCall g z t ∧
      Discriminator.call d x t = Discriminator.hybridCall d x t := by
  constructor
  · simp only [Generator.call, Generator.hybridCall]
    cases stridesProduct g.block_params with
    | none => rfl
    | some q =>
        simp only
        split
        · rfl
        · simp only [Generator.stagesAndTail, if_neg hg1, if_neg hg2]
          rw [genStagesHybridEq g t hg1]
  · simp only [Discriminator.call, Discriminator.hybridCall, if_neg hd1,
      if_neg hd2]
    rw [discStagesHybridEq d t hd1]

theorem c10_witness :
    Generator.call ⟨(16, 16), 16, false, 0, [⟨1, 2⟩], ⟨3, 1⟩, false⟩
        (Tensor.input 100) true =
      Generator.hybridCall ⟨(16, 16), 16, false, 0, [⟨1, 2⟩], ⟨3, 1⟩, false⟩
        (Tensor.input 100) true ∧
      Discriminator.call ⟨16, ⟨3, 1⟩, true, 0, [⟨1, 2⟩], false⟩
          (Tensor.input 3) true =
        Discriminator.hybridCall ⟨16, ⟨3, 1⟩, true, 0, [⟨1, 2⟩], false⟩
          (Tensor.input 3) true :=
  c10_hybrid_version _ _ _ _ _ (by decide) (by decide) (by decide) (by decide)
